import Mathlib

/-!
Verification of the system endpoints of `server/api/system/general.py`
(tasking-manager): the Swagger docs handler, the health-check handler, the
supported-languages handler, and the contact-admin email relay.

Each Flask handler is embedded as a pure Lean function.  Collaborator calls
(settings lookup, SMTP delivery, JSON body parsing) are passed in as explicit
outcome values (`Except` for code that may raise); the outbound mail calls and
the `logger.critical` calls a handler performs are returned as explicit trace
lists, so that "invoked exactly once", "never invoked" and "logged at critical
severity" become statements about those lists.
-/

namespace TaskingManager

/-- A JSON value, as produced by the handlers (`jsonify` payloads,
`to_primitive()` output). -/
inductive Json where
  | null : Json
  | bool : Bool → Json
  | str : String → Json
  | num : Int → Json
  | arr : List Json → Json
  | obj : List (String × Json) → Json

/-- Log severity.  The slice only ever calls `current_app.logger.critical`. -/
inductive Severity where
  | critical
deriving DecidableEq, BEq

/-- One `current_app.logger` call made by a handler. -/
structure LogEntry where
  severity : Severity
  message : String

/-- The settings snapshot returned by `SettingsService.get_settings()`; the
languages handler only calls its `to_primitive()` serialization. -/
structure Settings where
  to_primitive : Json

/- ----------------------------------------------------------------- -/
/- SystemHeartbeatAPI (GET /health-check), general.py lines 140-157  -/
/- ----------------------------------------------------------------- -/

/-- `SystemHeartbeatAPI.get`: `return {"status": "healthy"}, 200`.  The
handler takes no collaborator inputs at all, which is the formal content of
"responds without depending on any other subsystem". -/
def SystemHeartbeatAPI.get : Json × Nat :=
  (Json.obj [("status", Json.str "healthy")], 200)

/- ----------------------------------------------------------------- -/
/- SystemLanguagesAPI (GET /languages), general.py lines 160-181     -/
/- ----------------------------------------------------------------- -/

/-- The fixed error payload of the languages handler. -/
def languagesError : Json :=
  Json.obj [("Error", Json.str "Unable to fetch supported languages")]

/-- `SystemLanguagesAPI.get`.  `settings_result` is the outcome of
`SettingsService.get_settings()` (`.error e` models the collaborator raising
an exception whose `str` is `e`; `to_primitive()` is read off the snapshot).
Returns the `(payload, status)` pair and the list of log calls. -/
def SystemLanguagesAPI.get (settings_result : Except String Settings) :
    (Json × Nat) × List LogEntry :=
  match settings_result with
  | .ok languages => ((languages.to_primitive, 200), [])
  | .error e =>
      ((languagesError, 500),
        [⟨Severity.critical, "Languages GET - unhandled error: " ++ e⟩])

/- ----------------------------------------------------------------- -/
/- SystemDocsAPI (GET /docs), general.py lines 10-137                -/
/- ----------------------------------------------------------------- -/

/-- Python dict assignment `m[k] = v`: replace the value of an existing key,
or append the binding. -/
def dictSet (m : List (String × String)) (k v : String) :
    List (String × String) :=
  match m with
  | [] => [(k, v)]
  | (k₁, v₁) :: rest =>
      if k₁ = k then (k, v) :: rest else (k₁, v₁) :: dictSet rest k v

/-- Python dict lookup `m[k]`. -/
def dictGet (m : List (String × String)) (k : String) : Option String :=
  match m with
  | [] => none
  | (k₁, v₁) :: rest => if k₁ = k then some v₁ else dictGet rest k

/-- The document produced by `swagger(current_app)`: an `info` dict plus the
route metadata and schema definitions the generator assembled. -/
structure SwaggerDoc where
  info : List (String × String)
  paths : Json
  definitions : Json

/-- `SystemDocsAPI.get`: takes the document assembled by `swagger(current_app)`
and overwrites `swag["info"]["title" | "description" | "version"]` before
returning it. -/
def SystemDocsAPI.get (swag : SwaggerDoc) : SwaggerDoc :=
  let swag1 := { swag with
    info := dictSet swag.info "title" "Tasking Manager backend API" }
  let swag2 := { swag1 with
    info := dictSet swag1.info "description" "API endpoints for the backend" }
  { swag2 with info := dictSet swag2.info "version" "2.0.0" }

/- ----------------------------------------------------------------- -/
/- SystemContactAdminRestAPI (POST /contact-admin), lines 184-249    -/
/- ----------------------------------------------------------------- -/

/-- The JSON body of a contact-admin request as the handler reads it: three
`data.get(...)` lookups, each `none` when the key is missing. -/
structure ContactBody where
  name : Option String
  email : Option String
  content : Option String
deriving DecidableEq

/-- Python `str.format` of a `data.get(...)` result: an absent value (`None`)
renders as the string `None`. -/
def pyStr : Option String → String
  | some s => s
  | none => "None"

/-- The message composed by the handler (the `"""New contact from {} <{}>
(UID: {}). <p>{}</p>"""` template of lines 231-238, with the triple-quoted
literal's newlines and indentation kept).  Written right-nested so each
formatted fragment is a visible infix. -/
def contactMessage (data : ContactBody) (authenticated_user_id : Nat) :
    String :=
  "New contact from " ++
    (pyStr data.name ++
      (" <" ++
        (pyStr data.email ++
          ("> (UID: " ++
            (toString authenticated_user_id ++
              (").\n                <p>" ++
                (pyStr data.content ++
                  "</p>\n                ")))))))

/-- One outbound mail call: the four positional arguments of
`SMTPService._send_message` as the handler passes them,
`(EMAIL_FROM_ADDRESS, "Tasking Manager Contact", message, message)`. -/
structure SendCall where
  address : String
  subject : String
  html_message : String
  text_message : String
deriving DecidableEq

/-- The fixed error payload of the contact-admin handler (the copy-pasted
"application keys" message of line 249). -/
def appKeysError : Json :=
  Json.obj [("Error", Json.str "Unable to fetch application keys")]

/-- The success payload of the contact-admin handler. -/
def emailSent : Json := Json.obj [("Success", Json.str "Email sent")]

/-- The `str` of the `AttributeError` Python raises for
`None.get("name")` when `request.get_json()` returned `None` (rendered here
without the quote characters of the CPython message). -/
def noneTypeGetError : String :=
  "NoneType object has no attribute get (AttributeError)"

/-- The body of `SystemContactAdminRestAPI.post` (inside the decorators).
`get_json` is the outcome of `request.get_json()`: `.error e` when parsing
raises, `.ok none` when it returns `None`, `.ok (some data)` when a JSON
object arrives.  `send_message` is the outcome of the single
`SMTPService._send_message` call (`.error e` models the mail collaborator
raising).  Returns `((payload, status), outbound mail calls, log calls)`;
every raise inside the `try` is caught by the `except` of lines 246-249. -/
def SystemContactAdminRestAPI.post
    (email_from_address : String) (authenticated_user_id : Nat)
    (get_json : Except String (Option ContactBody))
    (send_message : Except String Unit) :
    (Json × Nat) × List SendCall × List LogEntry :=
  match get_json with
  | .error e =>
      ((appKeysError, 500), [],
        [⟨Severity.critical, "Application GET API - unhandled error: " ++ e⟩])
  | .ok none =>
      ((appKeysError, 500), [],
        [⟨Severity.critical,
          "Application GET API - unhandled error: " ++ noneTypeGetError⟩])
  | .ok (some data) =>
      let message := contactMessage data authenticated_user_id
      let call : SendCall :=
        ⟨email_from_address, "Tasking Manager Contact", message, message⟩
      match send_message with
      | .ok _ => ((emailSent, 201), [call], [])
      | .error e =>
          ((appKeysError, 500), [call],
            [⟨Severity.critical,
              "Application GET API - unhandled error: " ++ e⟩])

/-- Modelled from the spec: the decorators `@tm.pm_only(False)` and
`@token_auth.login_required` live in
`server/services/users/authentication_service.py`, which is not part of this
slice.  Per the spec, authentication failure is "surfaced by the auth
collaborator as 401/403 before the handler body executes", and `pm_only(False)`
admits any authenticated user. -/
inductive AuthOutcome where
  | authenticated (user_id : Nat)
  | unauthorized
  | forbidden

/-- Modelled from the spec: the decorated endpoint.  An unauthenticated or
forbidden request is answered by the auth collaborator (401/403, payload of
its choosing, here `null`) and the handler body never runs. -/
def SystemContactAdminRestAPI.postWithAuth
    (auth : AuthOutcome) (email_from_address : String)
    (get_json : Except String (Option ContactBody))
    (send_message : Except String Unit) :
    (Json × Nat) × List SendCall × List LogEntry :=
  match auth with
  | .authenticated uid =>
      SystemContactAdminRestAPI.post email_from_address uid get_json
        send_message
  | .unauthorized => ((Json.null, 401), [], [])
  | .forbidden => ((Json.null, 403), [], [])

/- ----------------------------------------------------------------- -/
/- Helper notions and lemmas (shared, not claim theorems)            -/
/- ----------------------------------------------------------------- -/

/-- `t` occurs as a contiguous substring of `s`. -/
def strContains (s t : String) : Prop := ∃ l r, s = l ++ (t ++ r)

theorem strContains_intro (l t r : String) : strContains (l ++ (t ++ r)) t :=
  ⟨l, r, rfl⟩

theorem strContains_head (t r : String) : strContains (t ++ r) t :=
  ⟨"", r, rfl⟩

theorem strContains_cons (a s t : String) (h : strContains s t) :
    strContains (a ++ s) t := by
  obtain ⟨l, r, hs⟩ := h
  exact ⟨a ++ l, r, by rw [hs, String.append_assoc]⟩

theorem dictGet_dictSet_self (m : List (String × String)) (k v : String) :
    dictGet (dictSet m k v) k = some v := by
  induction m with
  | nil => simp [dictSet, dictGet]
  | cons hd tl ih =>
      obtain ⟨k₁, v₁⟩ := hd
      by_cases hk : k₁ = k
      · simp [dictSet, dictGet, hk]
      · simp [dictSet, dictGet, hk, ih]

theorem dictGet_dictSet_other (m : List (String × String)) (k k₁ v : String)
    (h : k₁ ≠ k) : dictGet (dictSet m k₁ v) k = dictGet m k := by
  induction m with
  | nil => simp [dictSet, dictGet, h]
  | cons hd tl ih =>
      obtain ⟨k₂, v₂⟩ := hd
      by_cases hk : k₂ = k₁
      · simp [dictSet, dictGet, hk, h]
      · by_cases hk2 : k₂ = k
        · simp [dictSet, dictGet, hk, hk2, Ne.symm h]
        · simp [dictSet, dictGet, hk, hk2, ih]

/-- The concrete body of the spec's contact-admin success scenario. -/
def aliceBody : ContactBody := ⟨some "Alice", some "a@x.com", some "Hi"⟩

/- ----------------------------------------------------------------- -/
/- Claim theorems                                                    -/
/- ----------------------------------------------------------------- -/

/-- C7: every GET /health-check request returns exactly the payload
`{"status": "healthy"}` with status 200; the handler takes no collaborator
input, so no other subsystem is consulted. -/
theorem health_check_constant :
    SystemHeartbeatAPI.get = (Json.obj [("status", Json.str "healthy")], 200) :=
  rfl

/-- C2: when `get_settings()` succeeds the languages handler returns 200 with
exactly the serialized snapshot; when it raises any exception `e` it returns
500 with exactly the fixed payload (and one critical log).  The error payload
is the same constant for every exception text, so the response body never
carries the raised exception's text. -/
theorem languages_get_contract (s : Settings) (e : String) :
    SystemLanguagesAPI.get (Except.ok s) = ((s.to_primitive, 200), []) ∧
    SystemLanguagesAPI.get (Except.error e) =
      ((Json.obj [("Error", Json.str "Unable to fetch supported languages")],
          500),
        [⟨Severity.critical, "Languages GET - unhandled error: " ++ e⟩]) :=
  ⟨rfl, rfl⟩

/-- C8: for every successfully assembled swagger document, the docs handler's
output carries the non-empty title "Tasking Manager backend API", the
non-empty description "API endpoints for the backend", and the non-empty
version "2.0.0". -/
theorem docs_info_fields (swag : SwaggerDoc) :
    dictGet (SystemDocsAPI.get swag).info "title" =
      some "Tasking Manager backend API" ∧
    dictGet (SystemDocsAPI.get swag).info "description" =
      some "API endpoints for the backend" ∧
    dictGet (SystemDocsAPI.get swag).info "version" = some "2.0.0" ∧
    "Tasking Manager backend API" ≠ "" ∧
    "API endpoints for the backend" ≠ "" ∧ ("2.0.0" : String) ≠ "" := by
  refine ⟨?_, ?_, ?_, by decide, by decide, by decide⟩ <;>
    simp only [SystemDocsAPI.get]
  · rw [dictGet_dictSet_other _ _ _ _ (by decide),
      dictGet_dictSet_other _ _ _ _ (by decide), dictGet_dictSet_self]
  · rw [dictGet_dictSet_other _ _ _ _ (by decide), dictGet_dictSet_self]
  · rw [dictGet_dictSet_self]

/-- C1: with a valid session and body
`{"name": "Alice", "email": "a@x.com", "content": "Hi"}`, when the mail
collaborator does not raise, the handler makes exactly one mail call whose
message contains "Alice", "a@x.com", "Hi" and the authenticated user id, and
returns 201 with `{"Success": "Email sent"}`. -/
theorem contact_admin_success (efa : String) (uid : Nat) :
    SystemContactAdminRestAPI.post efa uid (Except.ok (some aliceBody))
        (Except.ok ()) =
      ((emailSent, 201),
        [⟨efa, "Tasking Manager Contact", contactMessage aliceBody uid,
          contactMessage aliceBody uid⟩],
        []) ∧
    strContains (contactMessage aliceBody uid) "Alice" ∧
    strContains (contactMessage aliceBody uid) "a@x.com" ∧
    strContains (contactMessage aliceBody uid) "Hi" ∧
    strContains (contactMessage aliceBody uid) (toString uid) := by
  refine ⟨rfl, ?_, ?_, ?_, ?_⟩
  · exact strContains_intro "New contact from " "Alice" _
  · exact strContains_cons _ _ _ (strContains_cons _ _ _
      (strContains_cons _ _ _ (strContains_head _ _)))
  · exact strContains_cons _ _ _ (strContains_cons _ _ _
      (strContains_cons _ _ _ (strContains_cons _ _ _ (strContains_cons _ _ _
        (strContains_cons _ _ _ (strContains_cons _ _ _
          (strContains_head _ _)))))))
  · exact strContains_cons _ _ _ (strContains_cons _ _ _
      (strContains_cons _ _ _ (strContains_cons _ _ _ (strContains_cons _ _ _
        (strContains_head _ _)))))

/-- C3 (code bug): the endpoint's own docstring documents a 400 "Invalid
Request" response, but for an invalid body (get_json() returning None, or
raising) the handler always answers 500, never 400. -/
theorem contact_admin_invalid_body_returns_500 (efa : String) (uid : Nat)
    (send_message : Except String Unit) (e : String) :
    (SystemContactAdminRestAPI.post efa uid (Except.ok none)
        send_message).1.2 = 500 ∧
    (SystemContactAdminRestAPI.post efa uid (Except.error e)
        send_message).1.2 = 500 :=
  ⟨rfl, rfl⟩

/-- C4: any exception raised inside the handler body (body parsing, attribute
access, mail delivery) is caught, logged at critical severity, and answered
with the fixed 500 payload, which is the same constant for every exception
text; the mail collaborator is called at most once per request, and exactly
once (no retry) when it is the mail call that fails. -/
theorem contact_admin_exception_handling (efa : String) (uid : Nat)
    (get_json : Except String (Option ContactBody))
    (send_message : Except String Unit) (e : String) (d : ContactBody) :
    (SystemContactAdminRestAPI.post efa uid get_json
        send_message).2.1.length ≤ 1 ∧
    ((SystemContactAdminRestAPI.post efa uid get_json send_message).2.2.all
        fun entry => entry.severity == Severity.critical) = true ∧
    (SystemContactAdminRestAPI.post efa uid (Except.error e)
        send_message).1 = (appKeysError, 500) ∧
    (SystemContactAdminRestAPI.post efa uid (Except.error e)
        send_message).2.1 = [] ∧
    (SystemContactAdminRestAPI.post efa uid (Except.ok none)
        send_message).1 = (appKeysError, 500) ∧
    (SystemContactAdminRestAPI.post efa uid (Except.ok (some d))
        (Except.error e)).1 = (appKeysError, 500) ∧
    (SystemContactAdminRestAPI.post efa uid (Except.ok (some d))
        (Except.error e)).2.1.length = 1 ∧
    (SystemContactAdminRestAPI.post efa uid (Except.ok (some d))
        (Except.error e)).2.2 =
      [⟨Severity.critical, "Application GET API - unhandled error: " ++ e⟩] := by
  refine ⟨?_, ?_, rfl, rfl, rfl, rfl, rfl, rfl⟩
  · rcases get_json with e₁ | b
    · simp [SystemContactAdminRestAPI.post]
    · rcases b with _ | d₁
      · simp [SystemContactAdminRestAPI.post]
      · rcases send_message with e₁ | u <;>
          simp [SystemContactAdminRestAPI.post]
  · rcases get_json with e₁ | b
    · rfl
    · rcases b with _ | d₁
      · rfl
      · rcases send_message with e₁ | u <;> rfl

/-- C5: an unauthenticated (401) or forbidden (403) POST /contact-admin is
rejected by the auth decorators before the handler body runs, so the mail
collaborator is never invoked (the outbound-call trace is empty). -/
theorem contact_admin_unauthenticated (efa : String)
    (get_json : Except String (Option ContactBody))
    (send_message : Except String Unit) :
    SystemContactAdminRestAPI.postWithAuth AuthOutcome.unauthorized efa
        get_json send_message = ((Json.null, 401), [], []) ∧
    SystemContactAdminRestAPI.postWithAuth AuthOutcome.forbidden efa
        get_json send_message = ((Json.null, 403), [], []) :=
  ⟨rfl, rfl⟩

/-- C6: for every JSON-object body, whatever fields are missing, the handler
still returns 201 and sends the composed message; a missing field renders as
the absent value (`None`), as the message for a body with no `content` field
shows. -/
theorem contact_admin_missing_fields (efa : String) (uid : Nat)
    (d : ContactBody) :
    SystemContactAdminRestAPI.post efa uid (Except.ok (some d))
        (Except.ok ()) =
      ((emailSent, 201),
        [⟨efa, "Tasking Manager Contact", contactMessage d uid,
          contactMessage d uid⟩],
        []) ∧
    pyStr none = "None" ∧
    strContains (contactMessage ⟨d.name, d.email, none⟩ uid) "None" := by
  refine ⟨rfl, rfl, ?_⟩
  exact strContains_cons _ _ _ (strContains_cons _ _ _
    (strContains_cons _ _ _ (strContains_cons _ _ _ (strContains_cons _ _ _
      (strContains_cons _ _ _ (strContains_cons _ _ _
        (strContains_head _ _)))))))

/-- C9: when `request.get_json()` yields `None`, the `data.get` attribute
access raises, and the handler answers 500 with exactly
`{"Error": "Unable to fetch application keys"}` while the mail collaborator
is never invoked. -/
theorem contact_admin_null_json (efa : String) (uid : Nat)
    (send_message : Except String Unit) :
    SystemContactAdminRestAPI.post efa uid (Except.ok none) send_message =
      ((appKeysError, 500), [],
        [⟨Severity.critical,
          "Application GET API - unhandled error: " ++ noneTypeGetError⟩]) ∧
    appKeysError =
      Json.obj [("Error", Json.str "Unable to fetch application keys")] :=
  ⟨rfl, rfl⟩

/-- C10: the handler passes the identical composed message as both the HTML
body and the plain-text body of the single mail call, on every request that
reaches the mail collaborator. -/
theorem contact_admin_body_duplication (efa : String) (uid : Nat)
    (d : ContactBody) (get_json : Except String (Option ContactBody))
    (send_message sm2 : Except String Unit) :
    (SystemContactAdminRestAPI.post efa uid (Except.ok (some d))
        send_message).2.1 =
      [⟨efa, "Tasking Manager Contact", contactMessage d uid,
        contactMessage d uid⟩] ∧
    ((SystemContactAdminRestAPI.post efa uid get_json sm2).2.1.all
        fun c => c.html_message == c.text_message) = true := by
  constructor
  · rcases send_message with e | u <;> rfl
  · rcases get_json with e | b
    · rfl
    · rcases b with _ | d₁
      · rfl
      · rcases sm2 with e | u <;>
          simp [SystemContactAdminRestAPI.post]

end TaskingManager
